import Mathlib

/-!
# Verification of the book reconciliation workflow (`fetch-book.mjs`)

A shallow embedding of the Pipedream "book scanner" step that, given an
ISBN-13, looks the book up in Google Books (the primary catalog) and Open
Library (the secondary catalog), reconciles the two answers into one record,
and normalizes the record by dropping empty-string fields.

JavaScript values that flow through the book object are modelled by `JSVal`
(strings, numbers, `NaN`, `undefined`, and the opaque upstream payload
objects).  Network responses are modelled by payload-returning functions in
`Env` (the claims under study all assume the HTTP transport succeeded; the
retry wrapper itself is modelled separately by `fetchBookData`).  Errors the
JavaScript engine would raise (`TypeError` on property access of `undefined`)
are modelled with `Except`.
-/

set_option autoImplicit false

namespace BookScanner

/-- The slice of a Google Books volume-detail response that the code reads
(`fullRecordResponse.volumeInfo`): `title`, `subtitle`, `authors`,
`pageCount`, `publishedDate`.  Optional JSON members are `Option`. -/
structure VolumeInfo where
  title : String
  subtitle : Option String
  authors : Option (List String)
  pageCount : Option Int
  publishedDate : Option String
  deriving DecidableEq, Repr

/-- The slice of an Open Library search document that the code reads
(`openLibraryResponse.docs[0]`): `title`, `subtitle`, `author_name`,
`number_of_pages_median`, `first_publish_year`, `isbn`, `key`.
`isbn` is `Option` because the code assumes the member is present and
crashes when it is not (claim C10). -/
structure OLDoc where
  title : String
  subtitle : Option String
  author_name : Option (List String)
  number_of_pages_median : Option Int
  first_publish_year : Option Int
  isbn : Option (List String)
  key : String
  deriving DecidableEq, Repr

/-- JavaScript values stored in the book object's fields. -/
inductive JSVal where
  | vStr : String → JSVal
  | vNum : Int → JSVal
  | vNaN : JSVal
  | vUndefined : JSVal
  | vObjVI : VolumeInfo → JSVal
  | vObjOL : OLDoc → JSVal
  deriving DecidableEq, Repr

/-- JavaScript string conversion as used by template-literal interpolation
(only ever applied to strings, numbers, `NaN` in this program). -/
def jsToString : JSVal → String
  | .vStr s => s
  | .vNum n => toString n
  | .vNaN => "NaN"
  | .vUndefined => "undefined"
  | .vObjVI _ => "[object Object]"
  | .vObjOL _ => "[object Object]"

/-- Numeric value of a decimal digit character. -/
def digitVal (c : Char) : Nat := c.toNat - 48

/-- Fold a list of decimal digits into a natural number. -/
def natOfDigits (l : List Char) : Nat := l.foldl (fun a c => a * 10 + digitVal c) 0

/-- Core of JavaScript `parseInt` with radix 10: skip leading whitespace,
optional sign, then the longest prefix of decimal digits; `none` when no
digit is found (JS would return `NaN`). -/
def parseIntCore (s : String) : Option Int :=
  let cs := s.data.dropWhile (fun c => c == ' ' || c == '\t' || c == '\n' || c == '\r')
  let signAndRest : Bool × List Char :=
    match cs with
    | '-' :: t => (true, t)
    | '+' :: t => (false, t)
    | t => (false, t)
  let ds := signAndRest.2.takeWhile (fun c => c.isDigit)
  match ds with
  | [] => none
  | _ => some (if signAndRest.1 then -(natOfDigits ds : Int) else (natOfDigits ds : Int))

/-- JavaScript `parseInt(s)` as a `JSVal`: a number, or `NaN` when no leading
integer can be parsed. -/
def parseIntJS (s : String) : JSVal :=
  match parseIntCore s with
  | some n => .vNum n
  | none => .vNaN

/-- JavaScript `parseInt(x)` applied to an optional numeric field: the number
when present (stringifying an integer and re-parsing it is the identity),
`NaN` when the field is `undefined` (`parseInt(undefined)` is `NaN`). -/
def parseIntOfNumField : Option Int → JSVal
  | some n => .vNum n
  | none => .vNaN

/-- The hyphen-stripping `replace` call on the input ISBN: remove every
hyphen from the string. -/
def stripHyphens (s : String) : String :=
  String.mk (s.data.filter (fun c => c != '-'))

/-- The nullish-coalescing operator `a ?? b`: `b` only when `a` is
`undefined` (our model has no separate `null` value in field positions). -/
def jsNullish (a b : JSVal) : JSVal :=
  match a with
  | .vUndefined => b
  | v => v

/-- The book object of `run` (lines 143-154 of `fetch-book.mjs`), with its
fields in the insertion order of the object literal. -/
structure Book where
  db : JSVal
  db_id : JSVal
  status : JSVal
  title : JSVal
  author : JSVal
  cover_image : JSVal
  isbn_13 : JSVal
  publish_year : JSVal
  page_count : JSVal
  full_record : JSVal
  deriving DecidableEq, Repr

/-- The initial book object: every field the empty string except `isbn_13`,
which holds `parseInt` of the hyphen-stripped input. -/
def initialBook (isbn : JSVal) : Book :=
  { db := .vStr "", db_id := .vStr "", status := .vStr "", title := .vStr "",
    author := .vStr "", cover_image := .vStr "", isbn_13 := isbn,
    publish_year := .vStr "", page_count := .vStr "", full_record := .vStr "" }

/-- `Object.keys(book)` order: the insertion order of the object literal. -/
def Book.toFields (b : Book) : List (String × JSVal) :=
  [("db", b.db), ("db_id", b.db_id), ("status", b.status), ("title", b.title),
   ("author", b.author), ("cover_image", b.cover_image), ("isbn_13", b.isbn_13),
   ("publish_year", b.publish_year), ("page_count", b.page_count),
   ("full_record", b.full_record)]

/-- `constructBookRecord`: keep exactly the keys whose value is not the empty
string (`book[key] !== ""`; strict equality, so non-string values are always
kept). -/
def constructBookRecord (fields : List (String × JSVal)) : List (String × JSVal) :=
  fields.filter (fun kv => kv.2 != JSVal.vStr "")

/-- Look a key up in the final record. -/
def getField (r : List (String × JSVal)) (k : String) : Option JSVal :=
  (r.find? (fun kv => kv.1 == k)).map (fun kv => kv.2)

/-- `buildBookTitle`: append `": <subtitle>"` when the subtitle is present
and non-empty (`book.subtitle && book.subtitle !== ""`). -/
def buildBookTitle (title : String) (subtitle : Option String) : String :=
  match subtitle with
  | some s => if s != "" then title ++ ": " ++ s else title
  | none => title

/-- `authors?.join(", ") ?? ""` (also used for `author_name`). -/
def joinAuthors : Option (List String) → String
  | some l => String.intercalate ", " l
  | none => ""

/-- `x ?? ""` for an optional numeric field (`pageCount`,
`number_of_pages_median`). -/
def numOrEmpty : Option Int → JSVal
  | some n => .vNum n
  | none => .vStr ""

/-- A non-empty string is truthy; `undefined` and `""` are falsy.  Models
`k && k !== "" ? k : <fallback>`. -/
def truthyKey : Option String → Option String
  | some s => if s == "" then none else some s
  | none => none

/-- The effective Google Books API key (lines 133-138): the environment
variable when truthy and non-empty, else the prop when truthy and non-empty,
else `null`. -/
def effectiveKey (envKey propKey : Option String) : Option String :=
  match truthyKey envKey with
  | some e => some e
  | none => truthyKey propKey

/-! ## The HTTP fetcher `fetchBookData` (lines 29-62)

`axios.get(url)` either resolves with a response (status 2xx under the
default `validateStatus`), rejects with an error that carries a response
(`error.response.status` is the 4xx/5xx status), or rejects with no response
at all (timeout / network error). -/

/-- Outcome of one `axios.get` call. -/
inductive AxiosResult where
  | ok : Nat → JSVal → AxiosResult
  | errResp : Nat → AxiosResult
  | errNoResp : AxiosResult
  deriving DecidableEq, Repr

/-- How `fetchBookData`'s retry wrapper terminates. -/
inductive FetchErr where
  /-- `bail` was called: "Cannot retry due to error: ... (Status code: s)". -/
  | bailErr : Nat → FetchErr
  /-- The `catch` block itself crashed: `error.response` is `undefined` and
  the log template reads `error.response.status`, raising a `TypeError`. -/
  | typeErr : FetchErr
  deriving DecidableEq, Repr

/-- Result of one attempt of the callback passed to `retry`. -/
inductive AttemptOut where
  | resolved : JSVal → AttemptOut
  | bailed : FetchErr → AttemptOut
  | rejected : FetchErr → AttemptOut
  deriving DecidableEq, Repr

/-- One attempt of the `retry` callback in `fetchBookData`:
* a 200 response resolves with its data;
* a non-200 resolved response throws `Error` (which has no `.response`), so
  the `catch` block's else branch crashes reading `error.response.status`;
* a rejected request with a 4xx response calls `bail`;
* a rejected request with any other response is logged but NOT rethrown, so
  the attempt RESOLVES with `undefined`;
* a rejected request with no response crashes in the `catch` block reading
  `error.response.status`. -/
def attemptOut (r : AxiosResult) : AttemptOut :=
  match r with
  | .ok s d => if s == 200 then .resolved d else .rejected .typeErr
  | .errResp s => if 400 ≤ s ∧ s < 500 then .bailed (.bailErr s) else .resolved .vUndefined
  | .errNoResp => .rejected .typeErr

/-- The `async-retry` loop with `retries: 3`: attempts are numbered from 1;
a resolved attempt is the overall result, a bail rejects immediately, and a
rejected attempt is retried while retries remain, else its error surfaces.
Returns the result together with the number of attempts performed. -/
def fetchGo (outcomes : Nat → AxiosResult) (attempt : Nat) :
    Nat → (Except FetchErr JSVal) × Nat
  | 0 =>
    match attemptOut (outcomes attempt) with
    | .resolved v => (.ok v, attempt)
    | .bailed e => (.error e, attempt)
    | .rejected e => (.error e, attempt)
  | r + 1 =>
    match attemptOut (outcomes attempt) with
    | .resolved v => (.ok v, attempt)
    | .bailed e => (.error e, attempt)
    | .rejected _ => fetchGo outcomes (attempt + 1) r

/-- `fetchBookData` modelled over the per-attempt outcomes of `axios.get` on
the (fixed) URL: up to 1 + 3 attempts. -/
def fetchBookData (outcomes : Nat → AxiosResult) : (Except FetchErr JSVal) × Nat :=
  fetchGo outcomes 1 3

/-! ## The cover resolver `fetchBookCover` (lines 66-97) -/

/-- A JavaScript runtime error (here always a `TypeError` from reading a
property of `undefined`), carrying its message. -/
inductive JsError where
  | typeError : String → JsError
  deriving DecidableEq, Repr

/-- The message of a JavaScript error. -/
def JsError.message : JsError → String
  | .typeError m => m

/-- Outcome of one cover probe.  The probe passes
`validateStatus: status === 200`, so axios resolves only on 200 and rejects
with `error.response.status = s` on any other received status. -/
inductive ProbeOutcome where
  | ok200 : ProbeOutcome
  | errResp : Nat → ProbeOutcome
  | errNoResp : ProbeOutcome
  deriving DecidableEq, Repr

/-- Base cover URL for an ISBN. -/
def coverBase (isbn : String) : String :=
  "https://covers.openlibrary.org/b/isbn/" ++ isbn

/-- The size ladder of `fetchBookCover`, largest first: on a 200 return the
probe URL with its trailing probe marker removed; on an error response
(404 or any other status) move to the next size; on an error with no
response the `catch` block reads `error.response.status` and crashes.
Falling off the end of the ladder returns `undefined`. -/
def coverLoop (probe : String → ProbeOutcome) (base : String) :
    List String → Except JsError JSVal
  | [] => .ok .vUndefined
  | size :: rest =>
    match probe (base ++ "-" ++ size ++ ".jpg?default=false") with
    | .ok200 => .ok (.vStr (base ++ "-" ++ size ++ ".jpg"))
    | .errResp _ => coverLoop probe base rest
    | .errNoResp =>
        .error (.typeError "Cannot read properties of undefined (reading 'status')")

/-- `fetchBookCover(isbn)`: walk the ladder L, M, S. -/
def fetchBookCover (probe : String → ProbeOutcome) (isbn : String) :
    Except JsError JSVal :=
  coverLoop probe (coverBase isbn) ["L", "M", "S"]

/-! ## The reconciliation `run` (lines 130-295) -/

/-- The environment of one `run`: configuration, the trigger input, and the
payloads the network would deliver.  The network transport is modelled as
succeeding; the claims about `run` all assume catalog responses arrive (the
retry wrapper is studied separately through `fetchBookData`).
`gbSearch` maps the ISBN term of a Google Books volume query to the list of
item ids of the response; `gbDetail` maps a volume id to its `volumeInfo`;
`olSearch` maps the Open Library query to the response's `docs` list;
`coverProbe` maps a cover probe URL to its outcome. -/
structure Env where
  envKey : Option String
  propKey : Option String
  inputIsbn : String
  gbSearch : String → List String
  gbDetail : String → VolumeInfo
  olSearch : String → List OLDoc
  coverProbe : String → ProbeOutcome

/-- The alternate-ISBN scan (lines 218-234): for each 13-digit alternate in
list order, search Google Books; on the first hit set
`db = "google_books"`, `db_id` to the first item's id,
`status = "Nearest match"` and stop; on a miss set `db = "open_library"`,
`db_id` to the Open Library key and continue.  An empty list leaves the book
unchanged. -/
def scanAlternates (gbSearch : String → List String) (olKey : String) :
    List String → Book → Book
  | [], b => b
  | n :: rest, b =>
    match gbSearch n with
    | id :: _ =>
        { b with db := .vStr "google_books", db_id := .vStr id,
                 status := .vStr "Nearest match" }
    | [] =>
        scanAlternates gbSearch olKey rest
          { b with db := .vStr "open_library", db_id := .vStr olKey }

/-- Populate the book from a Google Books full record (lines 262-269).
`publishedDate.substring(0, 4)` crashes with a `TypeError` when
`publishedDate` is `undefined`; otherwise `parseInt` of the first four
characters is kept even when it is `NaN`, because `?? ""` only replaces
nullish values. -/
def populateGB (vi : VolumeInfo) (b : Book) : Except JsError Book :=
  match vi.publishedDate with
  | none => .error (.typeError "Cannot read properties of undefined (reading 'substring')")
  | some d =>
      .ok { b with
        title := .vStr (buildBookTitle vi.title vi.subtitle),
        author := .vStr (joinAuthors vi.authors),
        page_count := numOrEmpty vi.pageCount,
        publish_year := jsNullish (parseIntJS (d.take 4)) (.vStr ""),
        full_record := .vObjVI vi }

/-- Populate the book from the stored Open Library document (lines 276-282):
note `parseInt(first_publish_year)` is `NaN` when the field is absent, and
`?? ""` does not replace `NaN`; `status` is set to `"Exact match"`. -/
def populateOL (doc : OLDoc) (b : Book) : Book :=
  { b with
    title := .vStr (buildBookTitle doc.title doc.subtitle),
    author := .vStr (joinAuthors doc.author_name),
    page_count := numOrEmpty doc.number_of_pages_median,
    publish_year := jsNullish (parseIntOfNumField doc.first_publish_year) (.vStr ""),
    status := .vStr "Exact match",
    full_record := .vObjOL doc }

/-- The source-selection stage (lines 157-249).

The source declares `let searchURL = null; let searchResponse = null;` in
the outer scope, but the Google Books search inside the
`if (googleBooksAPIKey)` block assigns to NEW `const` bindings that shadow
them, so the outer `searchResponse` is still `null` at the test on line 178:
the success branch of that test is unreachable, the initial search response
is discarded, and control always continues with the Open Library branch.

There, on an empty `docs` list the "Unidentified Book" record is produced;
on a non-empty list the first doc's `isbn` member is filtered to its
13-character entries (crashing when the member is absent), and then either
the alternate scan runs (key configured) or the Open Library doc is selected
directly (no key).  Returns the book together with the stored
`openLibraryBook`. -/
def stage1 (env : Env) (key : Option String) (isbn : JSVal) :
    Except JsError (Book × Option OLDoc) :=
  let b0 := initialBook isbn
  match env.olSearch (jsToString isbn) with
  | doc :: _ =>
    match doc.isbn with
    | none => .error (.typeError "Cannot read properties of undefined (reading 'filter')")
    | some lst =>
      let isbnArr := lst.filter (fun e => e.length == 13)
      match key with
      | some _ => .ok (scanAlternates env.gbSearch doc.key isbnArr b0, some doc)
      | none =>
          .ok ({ b0 with db := .vStr "open_library", db_id := .vStr doc.key }, some doc)
  | [] =>
      .ok ({ b0 with
              title := .vStr ("Unidentified Book with ISBN: " ++ jsToString isbn) },
           none)

/-- The detail stage (lines 252-283): fetch and merge the Google Books full
record, or merge the stored Open Library document
(`book.db === "open_library" && openLibraryBook`), else leave the book as
is. -/
def stage2detail (env : Env) (b1 : Book) (olBook : Option OLDoc) :
    Except JsError Book :=
  if b1.db == .vStr "google_books" then
    populateGB (env.gbDetail (jsToString b1.db_id)) b1
  else if b1.db == .vStr "open_library" then
    match olBook with
    | some doc => .ok (populateOL doc b1)
    | none => .ok b1
  else .ok b1

/-- The body of `run`: compute the effective key and the numeric ISBN, select
a source (stage 1), and — when a source was selected (`book.db !== ""`) —
fetch the detail, then the cover (whose thrown errors propagate), and finally
normalize with `constructBookRecord`. -/
def run (env : Env) : Except JsError (List (String × JSVal)) :=
  let key := effectiveKey env.envKey env.propKey
  let isbn := parseIntJS (stripHyphens env.inputIsbn)
  match stage1 env key isbn with
  | .error e => .error e
  | .ok (b1, olBook) =>
    if b1.db != .vStr "" then
      match stage2detail env b1 olBook with
      | .error e => .error e
      | .ok b2 =>
        match fetchBookCover env.coverProbe (jsToString b2.isbn_13) with
        | .error e => .error e
        | .ok cover => .ok (constructBookRecord { b2 with cover_image := cover }.toFields)
    else
      .ok (constructBookRecord b1.toFields)

/-- The whole step: the outer `try`/`catch` rewraps any thrown error as
`Error fetching book data: <message>` (lines 291-293). -/
def runStep (env : Env) : Except String (List (String × JSVal)) :=
  match run env with
  | .ok r => .ok r
  | .error e => .error ("Error fetching book data: " ++ e.message)

/-- Project a field of the final record out of a `run` result. -/
def outField (res : Except JsError (List (String × JSVal))) (k : String) :
    Option JSVal :=
  match res with
  | .ok r => getField r k
  | .error _ => none

/-! ## Concrete environments used to evaluate the code on specific inputs -/

/-- The detail payload of the spec's end-to-end example. -/
def viExample : VolumeInfo :=
  { title := "Example", subtitle := some "A Tale",
    authors := some ["A. Writer"], pageCount := some 300,
    publishedDate := some "2015-06-01" }

/-- An Open Library document with two 13-digit alternates (and one short
entry that the 13-character filter removes). -/
def docAlt : OLDoc :=
  { title := "T", subtitle := none, author_name := some ["A. Writer"],
    number_of_pages_median := some 222, first_publish_year := some 1999,
    isbn := some ["123", "9999999999999", "8888888888888"], key := "/works/OL1W" }

/-- The same document with no 13-digit alternate identifier. -/
def docEmptyAlts : OLDoc := { docAlt with isbn := some ["123"] }

/-- The same document with no `isbn` member at all. -/
def docNoIsbn : OLDoc := { docAlt with isbn := none }

/-- A run where Google Books finds the input ISBN directly but Open Library
does not know it. -/
def envPrimaryHitOLMiss : Env :=
  { envKey := some "KEY", propKey := none, inputIsbn := "978-1517004446",
    gbSearch := fun _ => ["abc123"],
    gbDetail := fun _ => viExample,
    olSearch := fun _ => [],
    coverProbe := fun _ => .errResp 404 }

/-- A run where the identifier is absent from both catalogs. -/
def envBothMiss : Env := { envPrimaryHitOLMiss with gbSearch := fun _ => [] }

/-- A run where Google Books misses, Open Library hits, the first 13-digit
alternate misses in Google Books and the second one hits. -/
def envAltHit : Env :=
  { envPrimaryHitOLMiss with
    olSearch := fun _ => [docAlt],
    gbSearch := fun n => if n = "8888888888888" then ["gid8"] else [] }

/-- A run where Open Library hits but no alternate matches in Google
Books. -/
def envAllMiss : Env := { envAltHit with gbSearch := fun _ => [] }

/-- A run where Open Library hits but its candidate has no 13-digit
alternate identifier. -/
def envEmptyAlts : Env := { envAltHit with olSearch := fun _ => [docEmptyAlts] }

/-- A run where Open Library's candidate carries no `isbn` member. -/
def envNoIsbnField : Env := { envAltHit with olSearch := fun _ => [docNoIsbn] }

/-- A run with no usable key: the environment variable is unset and the prop
is the empty string. -/
def envNoKey : Env := { envAllMiss with envKey := none, propKey := some "" }

/-- A nearest-match run whose Google Books detail has an unparsable publish
date. -/
def envBadDate : Env :=
  { envAltHit with gbDetail := fun _ => { viExample with publishedDate := some "n.d." } }

/-- A nearest-match run whose Google Books detail has no `publishedDate`
member. -/
def envNoDate : Env :=
  { envAltHit with gbDetail := fun _ => { viExample with publishedDate := none } }

/-- A resolved run in which every cover probe fails with no HTTP response. -/
def envCoverCrash : Env := { envAllMiss with coverProbe := fun _ => .errNoResp }

/-- A probe behaviour with a cover available only at size S. -/
def sOnlyProbe : String → ProbeOutcome := fun u =>
  if u = coverBase "9781517004446" ++ "-S.jpg?default=false" then .ok200
  else .errResp 404

/-! ## Helper lemmas -/

theorem append_ne_empty_left (s t : String) (h : s ≠ "") : s ++ t ≠ "" := by
  intro heq
  apply h
  have hd := congrArg String.data heq
  simp at hd
  rcases hd with ⟨h1, _⟩
  cases s
  simp_all

theorem append_ne_empty_right (s t : String) (h : t ≠ "") : s ++ t ≠ "" := by
  intro heq
  apply h
  have hd := congrArg String.data heq
  simp at hd
  rcases hd with ⟨_, h2⟩
  cases t
  simp_all

theorem parseIntJS_ne_emptyStr (s : String) : parseIntJS s ≠ JSVal.vStr "" := by
  unfold parseIntJS
  cases parseIntCore s <;> simp

/-- Reading a present key out of a filtered association list: if `(k, v)` is
an entry that the filter keeps and every entry carrying key `k` holds value
`v`, the lookup finds `v`. -/
theorem getField_filter (p : String × JSVal → Bool) (l : List (String × JSVal))
    (k : String) (v : JSVal) (hmem : (k, v) ∈ l) (hp : p (k, v) = true)
    (huniq : ∀ kv ∈ l, kv.1 = k → kv.2 = v) :
    getField (l.filter p) k = some v := by
  induction l with
  | nil => simp at hmem
  | cons a l ih =>
    by_cases hpa : p a = true
    · rw [List.filter_cons_of_pos hpa]
      by_cases hak : a.1 = k
      · have hav : a.2 = v := huniq a (List.mem_cons_self a l) hak
        have : a = (k, v) := Prod.ext hak hav
        subst this
        simp [getField]
      · have hmem' : (k, v) ∈ l := by
          rcases List.mem_cons.mp hmem with h | h
          · exact absurd (congrArg Prod.fst h.symm) hak
          · exact h
        have := ih hmem' (fun kv hkv hk => huniq kv (List.mem_cons_of_mem a hkv) hk)
        simpa [getField, List.find?_cons, hak] using this
    · have hmem' : (k, v) ∈ l := by
        rcases List.mem_cons.mp hmem with h | h
        · exact absurd (h ▸ hp) (by simpa using hpa)
        · exact h
      rw [List.filter_cons_of_neg (by simpa using hpa)]
      exact ih hmem' (fun kv hkv hk => huniq kv (List.mem_cons_of_mem a hkv) hk)

/-- Reading an absent key out of a filtered association list: if every entry
carrying key `k` is dropped by the filter, the lookup misses. -/
theorem getField_filter_none (p : String × JSVal → Bool) (l : List (String × JSVal))
    (k : String) (h : ∀ kv ∈ l, kv.1 = k → p kv = false) :
    getField (l.filter p) k = none := by
  unfold getField
  rw [Option.map_eq_none', List.find?_eq_none]
  intro kv hkv
  have hmem := List.mem_of_mem_filter hkv
  have hkeep := List.of_mem_filter hkv
  intro hbeq
  have hk : kv.1 = k := by simpa using hbeq
  rw [h kv hmem hk] at hkeep
  simp at hkeep

/-- The alternate scan when every 13-digit alternate misses: the book's
source fields become the Open Library entry. -/
theorem scanAlternates_all_miss (g : String → List String) (olKey : String)
    (alts : List String) (hne : alts ≠ []) (hmiss : ∀ m ∈ alts, g m = []) :
    ∀ b : Book, scanAlternates g olKey alts b =
      { b with db := .vStr "open_library", db_id := .vStr olKey } := by
  induction alts with
  | nil => exact absurd rfl hne
  | cons n rest ih =>
    intro b
    have hn : g n = [] := hmiss n (List.mem_cons_self n rest)
    rcases Decidable.em (rest = []) with hr | hr
    · subst hr
      simp [scanAlternates, hn]
    · have hrest : ∀ m ∈ rest, g m = [] :=
        fun m hm => hmiss m (List.mem_cons_of_mem n hm)
      simp [scanAlternates, hn, ih hr hrest]

/-- The alternate scan stops at the first hit: everything before `n` misses
and `n` returns items, so the book records `n`'s first item id with status
"Nearest match" — whatever comes after `n` is never consulted. -/
theorem scanAlternates_first_hit (g : String → List String) (olKey : String)
    (miss : List String) (n : String) (rest : List String)
    (id : String) (ids : List String)
    (hmiss : ∀ m ∈ miss, g m = []) (hhit : g n = id :: ids) :
    ∀ b : Book, scanAlternates g olKey (miss ++ n :: rest) b =
      { b with db := .vStr "google_books", db_id := .vStr id,
               status := .vStr "Nearest match" } := by
  induction miss with
  | nil =>
    intro b
    simp [scanAlternates, hhit]
  | cons m ms ih =>
    intro b
    have hm : g m = [] := hmiss m (List.mem_cons_self m ms)
    have hms : ∀ x ∈ ms, g x = [] := fun x hx => hmiss x (List.mem_cons_of_mem m hx)
    simp [scanAlternates, hm, ih hms]

/-- When no probe outcome lacks a response, the cover ladder terminates
normally, with either a non-empty URL string or `undefined`. -/
theorem coverLoop_ok_of_no_noResp (probe : String → ProbeOutcome) (base : String)
    (sizes : List String) (h : ∀ u, probe u ≠ .errNoResp) :
    ∃ v, coverLoop probe base sizes = .ok v ∧ v ≠ JSVal.vStr "" := by
  induction sizes with
  | nil => exact ⟨.vUndefined, rfl, by simp⟩
  | cons size rest ih =>
    cases hp : probe (base ++ "-" ++ size ++ ".jpg?default=false") with
    | ok200 =>
      refine ⟨.vStr (base ++ "-" ++ size ++ ".jpg"), by simp [coverLoop, hp], ?_⟩
      intro hcontra
      have : base ++ "-" ++ size ++ ".jpg" = "" := by simpa using hcontra
      exact append_ne_empty_right _ _ (by decide) this
    | errResp s =>
      rcases ih with ⟨v, hv, hvne⟩
      exact ⟨v, by simp [coverLoop, hp, hv], hvne⟩
    | errNoResp => exact absurd hp (h _)

theorem getField_record_db (b : Book) (h : b.db ≠ .vStr "") :
    getField (constructBookRecord b.toFields) "db" = some b.db := by
  apply getField_filter
  · simp [Book.toFields]
  · simpa using h
  · intro kv hkv hk
    simp [Book.toFields] at hkv
    rcases hkv with rfl|rfl|rfl|rfl|rfl|rfl|rfl|rfl|rfl|rfl <;> simp_all

theorem getField_record_db_none (b : Book) (h : b.db = .vStr "") :
    getField (constructBookRecord b.toFields) "db" = none := by
  apply getField_filter_none
  intro kv hkv hk
  simp [Book.toFields] at hkv
  rcases hkv with rfl|rfl|rfl|rfl|rfl|rfl|rfl|rfl|rfl|rfl <;> simp_all

theorem getField_record_db_id (b : Book) (h : b.db_id ≠ .vStr "") :
    getField (constructBookRecord b.toFields) "db_id" = some b.db_id := by
  apply getField_filter
  · simp [Book.toFields]
  · simpa using h
  · intro kv hkv hk
    simp [Book.toFields] at hkv
    rcases hkv with rfl|rfl|rfl|rfl|rfl|rfl|rfl|rfl|rfl|rfl <;> simp_all

theorem getField_record_status (b : Book) (h : b.status ≠ .vStr "") :
    getField (constructBookRecord b.toFields) "status" = some b.status := by
  apply getField_filter
  · simp [Book.toFields]
  · simpa using h
  · intro kv hkv hk
    simp [Book.toFields] at hkv
    rcases hkv with rfl|rfl|rfl|rfl|rfl|rfl|rfl|rfl|rfl|rfl <;> simp_all

theorem getField_record_title (b : Book) (h : b.title ≠ .vStr "") :
    getField (constructBookRecord b.toFields) "title" = some b.title := by
  apply getField_filter
  · simp [Book.toFields]
  · simpa using h
  · intro kv hkv hk
    simp [Book.toFields] at hkv
    rcases hkv with rfl|rfl|rfl|rfl|rfl|rfl|rfl|rfl|rfl|rfl <;> simp_all

theorem getField_record_author (b : Book) (h : b.author ≠ .vStr "") :
    getField (constructBookRecord b.toFields) "author" = some b.author := by
  apply getField_filter
  · simp [Book.toFields]
  · simpa using h
  · intro kv hkv hk
    simp [Book.toFields] at hkv
    rcases hkv with rfl|rfl|rfl|rfl|rfl|rfl|rfl|rfl|rfl|rfl <;> simp_all

theorem getField_record_page_count (b : Book) (h : b.page_count ≠ .vStr "") :
    getField (constructBookRecord b.toFields) "page_count" = some b.page_count := by
  apply getField_filter
  · simp [Book.toFields]
  · simpa using h
  · intro kv hkv hk
    simp [Book.toFields] at hkv
    rcases hkv with rfl|rfl|rfl|rfl|rfl|rfl|rfl|rfl|rfl|rfl <;> simp_all

theorem getField_record_publish_year (b : Book) (h : b.publish_year ≠ .vStr "") :
    getField (constructBookRecord b.toFields) "publish_year" = some b.publish_year := by
  apply getField_filter
  · simp [Book.toFields]
  · simpa using h
  · intro kv hkv hk
    simp [Book.toFields] at hkv
    rcases hkv with rfl|rfl|rfl|rfl|rfl|rfl|rfl|rfl|rfl|rfl <;> simp_all

/-- Merging a Google Books detail whose publish date is present. -/
theorem populateGB_eq (vi : VolumeInfo) (b : Book) (d : String)
    (hpd : vi.publishedDate = some d) :
    populateGB vi b = .ok { b with
      title := .vStr (buildBookTitle vi.title vi.subtitle),
      author := .vStr (joinAuthors vi.authors),
      page_count := numOrEmpty vi.pageCount,
      publish_year := jsNullish (parseIntJS (d.take 4)) (.vStr ""),
      full_record := .vObjVI vi } := by
  simp [populateGB, hpd]

/-- With no key, stage 1 either keeps `db` empty (Open Library missed) or
selects the Open Library document; it never selects Google Books. -/
theorem stage1_none_db (env : Env) (isbn : JSVal) (b1 : Book) (ol : Option OLDoc)
    (h : stage1 env none isbn = .ok (b1, ol)) :
    (b1.db = .vStr "" ∧ ol = none) ∨
    (b1.db = .vStr "open_library" ∧ ∃ doc, ol = some doc) := by
  unfold stage1 at h
  cases holv : env.olSearch (jsToString isbn) with
  | nil =>
    rw [holv] at h
    simp at h
    obtain ⟨hb, hol⟩ := h
    subst hol
    exact Or.inl ⟨by simp [← hb, initialBook], rfl⟩
  | cons doc rest =>
    rw [holv] at h
    dsimp only at h
    cases hn : doc.isbn with
    | none => rw [hn] at h; simp at h
    | some lst =>
      rw [hn] at h
      simp at h
      obtain ⟨hb, hol⟩ := h
      subst hol
      exact Or.inr ⟨by simp [← hb, initialBook], doc, rfl⟩

/-! ## Claim theorems -/

/-- C1: the claim says a primary-catalog hit on the input identifier yields
`source = primary`, `matchQuality = exact`.  The code discards the initial
Google Books search response (the inner `const searchResponse` shadows the
outer `let`), so on an input that Google Books knows but Open Library does
not, the run returns the "Unidentified Book" placeholder instead: the final
record carries no `db` and no `status` field at all. -/
theorem c1_primary_hit_discarded :
    run envPrimaryHitOLMiss =
      .ok [("title", JSVal.vStr "Unidentified Book with ISBN: 9781517004446"),
           ("isbn_13", JSVal.vNum 9781517004446)] ∧
    outField (run envPrimaryHitOLMiss) "db" = none ∧
    outField (run envPrimaryHitOLMiss) "status" = none :=
  ⟨rfl, rfl, rfl⟩

/-- C2: the claim says a 4xx failure is terminal after exactly one attempt
(this part the code honours via `bail`), and that any other failure is
retried up to 3 more times with the last error surfaced.  In the code the
`catch` block merely logs a non-4xx response error without rethrowing, so
the attempt RESOLVES with `undefined`: a 503 response ends after one attempt
with no retry and no error.  Only a failure without any response object is
retried (because the log line itself throws a `TypeError`), and what
surfaces after 4 attempts is that `TypeError`. -/
theorem c2_retry_policy :
    fetchBookData (fun _ => .errResp 404) = (.error (.bailErr 404), 1) ∧
    fetchBookData (fun _ => .errResp 503) = (.ok .vUndefined, 1) ∧
    fetchBookData (fun _ => .errNoResp) = (.error .typeErr, 4) :=
  ⟨rfl, rfl, rfl⟩

/-- C3: the claim says cover resolution never throws, even for probe
failures with no HTTP response.  The code's ladder does fall through error
responses (a cover only at size S is found; no cover at any size yields
`undefined`), but a probe failure with no response object crashes the
`catch` block (`error.response.status`), and inside `run` that `TypeError`
aborts the whole reconciliation. -/
theorem c3_cover_noResp_throws :
    fetchBookCover (fun _ => .errNoResp) "9781517004446" =
      .error (.typeError "Cannot read properties of undefined (reading 'status')") ∧
    fetchBookCover sOnlyProbe "9781517004446" =
      .ok (.vStr "https://covers.openlibrary.org/b/isbn/9781517004446-S.jpg") ∧
    fetchBookCover (fun _ => .errResp 404) "9781517004446" = .ok .vUndefined ∧
    runStep envCoverCrash =
      .error "Error fetching book data: Cannot read properties of undefined (reading 'status')" :=
  ⟨rfl, rfl, rfl, rfl⟩

/-- C4: when the primary catalog misses the input identifier (as it
observably always does, the initial response being discarded), the secondary
candidate's 13-digit alternates are probed in list order, the scan stops at
the first Google Books hit, and the output carries
`db = "google_books"`, `status = "Nearest match"` and `db_id` equal to the
first item id Google Books returned for that FIRST matching alternate —
whatever `rest` contains, i.e. even if a later alternate would also match. -/
theorem c4_first_alternate_match (env : Env) (doc : OLDoc) (docs : List OLDoc)
    (k : String) (alts miss rest : List String) (n id : String) (ids : List String)
    (d : String)
    (hk : effectiveKey env.envKey env.propKey = some k)
    (holv : env.olSearch (jsToString (parseIntJS (stripHyphens env.inputIsbn))) = doc :: docs)
    (hisbn : doc.isbn = some alts)
    (hsplit : alts.filter (fun e => e.length == 13) = miss ++ n :: rest)
    (hmiss : ∀ m ∈ miss, env.gbSearch m = [])
    (hhit : env.gbSearch n = id :: ids)
    (hid : id ≠ "")
    (hpd : (env.gbDetail id).publishedDate = some d)
    (hcov : ∀ u, env.coverProbe u ≠ .errNoResp) :
    outField (run env) "db" = some (.vStr "google_books") ∧
    outField (run env) "status" = some (.vStr "Nearest match") ∧
    outField (run env) "db_id" = some (.vStr id) := by
  have hscan := scanAlternates_first_hit env.gbSearch doc.key miss n rest id ids hmiss hhit
  have h1 : stage1 env (effectiveKey env.envKey env.propKey)
      (parseIntJS (stripHyphens env.inputIsbn)) =
      .ok ({ db := .vStr "google_books", db_id := .vStr id,
             status := .vStr "Nearest match", title := .vStr "", author := .vStr "",
             cover_image := .vStr "", isbn_13 := parseIntJS (stripHyphens env.inputIsbn),
             publish_year := .vStr "", page_count := .vStr "", full_record := .vStr "" },
            some doc) := by
    simp only [stage1, holv, hisbn, hk, hsplit, hscan, initialBook]
  obtain ⟨v, hv, -⟩ := coverLoop_ok_of_no_noResp env.coverProbe
      (coverBase (jsToString (parseIntJS (stripHyphens env.inputIsbn)))) ["L", "M", "S"] hcov
  have hcv : fetchBookCover env.coverProbe
      (jsToString (parseIntJS (stripHyphens env.inputIsbn))) = .ok v := hv
  have hpop := populateGB_eq (env.gbDetail id)
      { db := .vStr "google_books", db_id := .vStr id,
        status := .vStr "Nearest match", title := .vStr "", author := .vStr "",
        cover_image := .vStr "", isbn_13 := parseIntJS (stripHyphens env.inputIsbn),
        publish_year := .vStr "", page_count := .vStr "", full_record := .vStr "" } d hpd
  have hjs : jsToString (JSVal.vStr id) = id := rfl
  unfold run
  simp only [h1]
  simp only [stage2detail]
  simp [hjs, hpop, hcv, outField]
  refine ⟨?_, ?_, ?_⟩
  · rw [getField_record_db _ (by simp)]
  · rw [getField_record_status _ (by simp)]
  · rw [getField_record_db_id _ (by simpa using hid)]

/-- C4 witness: the scan evaluated on a concrete environment where the
first 13-digit alternate misses and the second hits with id `gid8`. -/
theorem c4_first_alternate_match_witness :
    outField (run envAltHit) "db" = some (.vStr "google_books") ∧
    outField (run envAltHit) "status" = some (.vStr "Nearest match") ∧
    outField (run envAltHit) "db_id" = some (.vStr "gid8") :=
  c4_first_alternate_match envAltHit docAlt [] "KEY"
    ["123", "9999999999999", "8888888888888"] ["9999999999999"] [] "8888888888888"
    "gid8" [] "2015-06-01" rfl rfl rfl (by decide) (by decide) (by decide) (by decide)
    rfl (by intro u; simp [envAltHit, envPrimaryHitOLMiss])

/-- C5 counterexample: with a key configured, a secondary candidate whose
13-digit alternate list is EMPTY does not fall back to the secondary
catalog; the scan loop never runs, `db` stays empty, and the normalized
output is the bare `isbn_13` record with no source, no status and no
title. -/
theorem c5_counterexample :
    run envEmptyAlts = .ok [("isbn_13", JSVal.vNum 9781517004446)] ∧
    outField (run envEmptyAlts) "db" = none ∧
    outField (run envEmptyAlts) "title" = none :=
  ⟨rfl, rfl, rfl⟩

/-- C5 amended: when the secondary catalog returns a candidate and no
13-digit alternate yields a primary hit, the fallback record
(`db = "open_library"`, `status = "Exact match"`, fields taken from the
secondary document) is produced PROVIDED the 13-digit alternate list is
non-empty (or no key is configured at all); with a key and an empty list the
loop body never runs and the bare `isbn_13` record results instead (see the
counterexample). -/
theorem c5_secondary_fallback (env : Env) (doc : OLDoc) (docs : List OLDoc)
    (alts : List String) (as : List String) (pc y : Int)
    (holv : env.olSearch (jsToString (parseIntJS (stripHyphens env.inputIsbn))) = doc :: docs)
    (hisbn : doc.isbn = some alts)
    (hmode :
      (effectiveKey env.envKey env.propKey ≠ none ∧
        alts.filter (fun e => e.length == 13) ≠ [] ∧
        ∀ m ∈ alts.filter (fun e => e.length == 13), env.gbSearch m = []) ∨
      effectiveKey env.envKey env.propKey = none)
    (hkey : doc.key ≠ "")
    (htitle : buildBookTitle doc.title doc.subtitle ≠ "")
    (hauth : doc.author_name = some as)
    (hjoin : String.intercalate ", " as ≠ "")
    (hpc : doc.number_of_pages_median = some pc)
    (hy : doc.first_publish_year = some y)
    (hcov : ∀ u, env.coverProbe u ≠ .errNoResp) :
    outField (run env) "db" = some (.vStr "open_library") ∧
    outField (run env) "status" = some (.vStr "Exact match") ∧
    outField (run env) "db_id" = some (.vStr doc.key) ∧
    outField (run env) "title" = some (.vStr (buildBookTitle doc.title doc.subtitle)) ∧
    outField (run env) "author" = some (.vStr (String.intercalate ", " as)) ∧
    outField (run env) "page_count" = some (.vNum pc) ∧
    outField (run env) "publish_year" = some (.vNum y) := by
  have h1 : stage1 env (effectiveKey env.envKey env.propKey)
      (parseIntJS (stripHyphens env.inputIsbn)) =
      .ok ({ db := .vStr "open_library", db_id := .vStr doc.key,
             status := .vStr "", title := .vStr "", author := .vStr "",
             cover_image := .vStr "", isbn_13 := parseIntJS (stripHyphens env.inputIsbn),
             publish_year := .vStr "", page_count := .vStr "", full_record := .vStr "" },
            some doc) := by
    rcases hmode with ⟨hk, hne, hmiss⟩ | hk
    · rcases Option.ne_none_iff_exists'.mp hk with ⟨kk, hkk⟩
      have hscan := scanAlternates_all_miss env.gbSearch doc.key _ hne hmiss
      simp only [stage1, holv, hisbn, hkk, hscan, initialBook]
    · simp only [stage1, holv, hisbn, hk, initialBook]
  obtain ⟨v, hv, -⟩ := coverLoop_ok_of_no_noResp env.coverProbe
      (coverBase (jsToString (parseIntJS (stripHyphens env.inputIsbn)))) ["L", "M", "S"] hcov
  have hcv : fetchBookCover env.coverProbe
      (jsToString (parseIntJS (stripHyphens env.inputIsbn))) = .ok v := hv
  unfold run
  simp only [h1]
  simp only [stage2detail]
  simp [populateOL, hauth, hpc, hy, hcv, outField, joinAuthors,
    parseIntOfNumField, jsNullish, numOrEmpty]
  refine ⟨?_, ?_, ?_, ?_, ?_, ?_, ?_⟩
  · rw [getField_record_db _ (by simp)]
  · rw [getField_record_status _ (by simp)]
  · rw [getField_record_db_id _ (by simpa using hkey)]
  · rw [getField_record_title _ (by simpa using htitle)]
  · rw [getField_record_author _ (by simpa using hjoin)]
  · rw [getField_record_page_count _ (by simp)]
  · rw [getField_record_publish_year _ (by simp)]

/-- C5 witness: the amended fallback evaluated on a concrete environment
where both 13-digit alternates miss in Google Books. -/
theorem c5_secondary_fallback_witness :
    outField (run envAllMiss) "db" = some (.vStr "open_library") ∧
    outField (run envAllMiss) "status" = some (.vStr "Exact match") ∧
    outField (run envAllMiss) "db_id" = some (.vStr "/works/OL1W") ∧
    outField (run envAllMiss) "title" = some (.vStr "T") ∧
    outField (run envAllMiss) "author" = some (.vStr "A. Writer") ∧
    outField (run envAllMiss) "page_count" = some (.vNum 222) ∧
    outField (run envAllMiss) "publish_year" = some (.vNum 1999) :=
  c5_secondary_fallback envAllMiss docAlt [] ["123", "9999999999999", "8888888888888"]
    ["A. Writer"] 222 1999 rfl rfl
    (Or.inl ⟨by decide, by decide, by decide⟩)
    (by decide) (by decide) rfl (by decide) rfl rfl
    (by intro u; simp [envAllMiss, envAltHit, envPrimaryHitOLMiss])

/-- C6 counterexample: for an identifier absent from both catalogs the
output record is the placeholder, but its `isbn_13` field holds the NUMBER
`parseInt` produced, not the digits-only STRING the claim requires. -/
theorem c6_counterexample :
    run envBothMiss =
      .ok [("title", JSVal.vStr "Unidentified Book with ISBN: 9781517004446"),
           ("isbn_13", JSVal.vNum 9781517004446)] ∧
    outField (run envBothMiss) "isbn_13" = some (JSVal.vNum 9781517004446) ∧
    JSVal.vNum 9781517004446 ≠ JSVal.vStr "9781517004446" :=
  ⟨rfl, rfl, by decide⟩

/-- C6 amended: for every identifier absent from the secondary catalog
(which, because the initial primary search response is discarded, is all
that matters), the output is exactly the two-field record
`title = "Unidentified Book with ISBN: <n>"`, `isbn_13 = <n>`, where `<n>`
is the NUMBER obtained by `parseInt` on the hyphen-stripped input (`NaN`
when unparsable), not a digits-only string. -/
theorem c6_unidentified_record (env : Env)
    (h : env.olSearch (jsToString (parseIntJS (stripHyphens env.inputIsbn))) = []) :
    run env = .ok
      [("title", JSVal.vStr ("Unidentified Book with ISBN: " ++
         jsToString (parseIntJS (stripHyphens env.inputIsbn)))),
       ("isbn_13", parseIntJS (stripHyphens env.inputIsbn))] := by
  have hne := parseIntJS_ne_emptyStr (stripHyphens env.inputIsbn)
  have htitle : ("Unidentified Book with ISBN: " ++
      jsToString (parseIntJS (stripHyphens env.inputIsbn))) ≠ "" :=
    append_ne_empty_left _ _ (by decide)
  unfold run stage1
  simp [h, initialBook, constructBookRecord, Book.toFields, hne, htitle]

/-- C6 witness: the amended statement evaluated on a concrete identifier
absent from both catalogs. -/
theorem c6_unidentified_record_witness :
    run envBothMiss = .ok
      [("title", JSVal.vStr ("Unidentified Book with ISBN: " ++
         jsToString (parseIntJS (stripHyphens envBothMiss.inputIsbn)))),
       ("isbn_13", parseIntJS (stripHyphens envBothMiss.inputIsbn))] :=
  c6_unidentified_record envBothMiss rfl

/-- C7: `constructBookRecord` is idempotent and no field of its output holds
the empty string. -/
theorem c7_normalize_idempotent (x : List (String × JSVal)) :
    constructBookRecord (constructBookRecord x) = constructBookRecord x ∧
    ∀ kv ∈ constructBookRecord x, kv.2 ≠ JSVal.vStr "" := by
  constructor
  · simp [constructBookRecord, List.filter_filter]
  · intro kv hkv
    have := List.of_mem_filter hkv
    simpa using this

/-- C7 witness: idempotence and non-emptiness evaluated on a concrete
record with one empty and one non-empty field. -/
theorem c7_normalize_idempotent_witness :
    constructBookRecord (constructBookRecord
        [("author", JSVal.vStr ""), ("page_count", JSVal.vNum 3)]) =
      constructBookRecord [("author", JSVal.vStr ""), ("page_count", JSVal.vNum 3)] ∧
    ("page_count", JSVal.vNum 3).2 ≠ JSVal.vStr "" := by
  refine ⟨(c7_normalize_idempotent _).1, ?_⟩
  exact (c7_normalize_idempotent
    [("author", JSVal.vStr ""), ("page_count", JSVal.vNum 3)]).2
    ("page_count", JSVal.vNum 3) (by decide)

/-- C8: the claim says the publish year is the first four characters of the
publish date parsed as an integer (which the code does on a parsable date),
and is ABSENT when the date is missing or unparsable.  The code instead
stores `NaN` for an unparsable date (`?? ""` does not replace `NaN`) and the
`NaN` survives normalization; a missing date crashes the whole run with a
`TypeError` on `substring`. -/
theorem c8_publish_year :
    outField (run envAltHit) "publish_year" = some (JSVal.vNum 2015) ∧
    outField (run envBadDate) "publish_year" = some JSVal.vNaN ∧
    run envNoDate =
      .error (.typeError "Cannot read properties of undefined (reading 'substring')") :=
  ⟨rfl, rfl, rfl⟩

/-- C9: the effective primary-catalog key is the environment variable when
set and non-empty, else the explicit prop when set and non-empty, else no
key; and when no key results the run never consults the primary catalog —
its outcome is invariant under arbitrary changes to the Google Books search
and detail responses — and the output's `db` field is never
`"google_books"`: secondary-catalog-only mode. -/
theorem c9_key_precedence_secondary_only (env : Env) :
    (∀ e, env.envKey = some e → e ≠ "" →
      effectiveKey env.envKey env.propKey = some e) ∧
    (∀ p, (env.envKey = none ∨ env.envKey = some "") → env.propKey = some p → p ≠ "" →
      effectiveKey env.envKey env.propKey = some p) ∧
    ((env.envKey = none ∨ env.envKey = some "") →
      (env.propKey = none ∨ env.propKey = some "") →
      effectiveKey env.envKey env.propKey = none) ∧
    (effectiveKey env.envKey env.propKey = none →
      (∀ g d, run { env with gbSearch := g, gbDetail := d } = run env) ∧
      (∀ r, run env = .ok r → getField r "db" ≠ some (.vStr "google_books"))) := by
  refine ⟨?_, ?_, ?_, ?_⟩
  · intro e he hne
    simp [effectiveKey, truthyKey, he, hne]
  · intro p he hp hpne
    rcases he with he | he <;> simp [effectiveKey, truthyKey, he, hp, hpne]
  · intro he hp
    rcases he with he | he <;> rcases hp with hp | hp <;>
      simp [effectiveKey, truthyKey, he, hp]
  · intro hnone
    constructor
    · intro g d
      have hst : stage1 { env with gbSearch := g, gbDetail := d } none
          (parseIntJS (stripHyphens env.inputIsbn)) =
          stage1 env none (parseIntJS (stripHyphens env.inputIsbn)) := rfl
      unfold run
      dsimp only
      simp only [hnone, hst]
      cases hs : stage1 env none (parseIntJS (stripHyphens env.inputIsbn)) with
      | error e => rfl
      | ok pair =>
        obtain ⟨b1, ol⟩ := pair
        rcases stage1_none_db env _ b1 ol hs with ⟨hdb, hol⟩ | ⟨hdb, doc, hol⟩
        · subst hol
          simp [hdb]
        · subst hol
          simp [stage2detail, hdb]
    · intro r hr h
      unfold run at hr
      simp only [hnone] at hr
      cases hs : stage1 env none (parseIntJS (stripHyphens env.inputIsbn)) with
      | error e => rw [hs] at hr; simp at hr
      | ok pair =>
        obtain ⟨b1, ol⟩ := pair
        rw [hs] at hr
        rcases stage1_none_db env _ b1 ol hs with ⟨hdb, hol⟩ | ⟨hdb, doc, hol⟩
        · subst hol
          simp [hdb] at hr
          rw [← hr, getField_record_db_none b1 hdb] at h
          exact Option.noConfusion h
        · subst hol
          simp only [stage2detail, hdb] at hr
          simp at hr
          cases hc : fetchBookCover env.coverProbe
              (jsToString ((populateOL doc b1).isbn_13)) with
          | error e => rw [hc] at hr; simp at hr
          | ok cover =>
            rw [hc] at hr
            simp at hr
            rw [← hr] at h
            rw [getField_record_db _ (by simp [populateOL, hdb])] at h
            simp [populateOL, hdb] at h

/-- C9 witness: the precedence rules evaluated on concrete keys, and, on a
concrete no-key environment, the run's invariance under a change of the
primary catalog's responses together with the absence of `"google_books"`
in the output's `db` field. -/
theorem c9_key_precedence_secondary_only_witness :
    effectiveKey (some "KEY") none = some "KEY" ∧
    effectiveKey none (some "P") = some "P" ∧
    effectiveKey none (some "") = none ∧
    run { envNoKey with gbSearch := fun _ => ["zzz"], gbDetail := fun _ => viExample } =
      run envNoKey ∧
    getField
      [("db", JSVal.vStr "open_library"), ("db_id", JSVal.vStr "/works/OL1W"),
       ("status", JSVal.vStr "Exact match"), ("title", JSVal.vStr "T"),
       ("author", JSVal.vStr "A. Writer"), ("cover_image", JSVal.vUndefined),
       ("isbn_13", JSVal.vNum 9781517004446), ("publish_year", JSVal.vNum 1999),
       ("page_count", JSVal.vNum 222), ("full_record", JSVal.vObjOL docAlt)]
      "db" ≠ some (.vStr "google_books") :=
  ⟨(c9_key_precedence_secondary_only envPrimaryHitOLMiss).1 "KEY" rfl (by decide),
   (c9_key_precedence_secondary_only { envNoKey with propKey := some "P" }).2.1 "P"
     (Or.inl rfl) rfl (by decide),
   (c9_key_precedence_secondary_only envNoKey).2.2.1 (Or.inl rfl) (Or.inr rfl),
   ((c9_key_precedence_secondary_only envNoKey).2.2.2 rfl).1
     (fun _ => ["zzz"]) (fun _ => viExample),
   ((c9_key_precedence_secondary_only envNoKey).2.2.2 rfl).2
     [("db", JSVal.vStr "open_library"), ("db_id", JSVal.vStr "/works/OL1W"),
      ("status", JSVal.vStr "Exact match"), ("title", JSVal.vStr "T"),
      ("author", JSVal.vStr "A. Writer"), ("cover_image", JSVal.vUndefined),
      ("isbn_13", JSVal.vNum 9781517004446), ("publish_year", JSVal.vNum 1999),
      ("page_count", JSVal.vNum 222), ("full_record", JSVal.vObjOL docAlt)] rfl⟩

/-- C10: when the secondary catalog's first document carries no `isbn`
member at all, the engine's `.filter` on that member raises and the whole
reconciliation surfaces `Error fetching book data: ...` instead of falling
back to the secondary candidate. -/
theorem c10_missing_isbn_member_raises (env : Env) (doc : OLDoc) (docs : List OLDoc)
    (holv : env.olSearch (jsToString (parseIntJS (stripHyphens env.inputIsbn))) = doc :: docs)
    (hno : doc.isbn = none) :
    ∃ m, runStep env = .error ("Error fetching book data: " ++ m) := by
  refine ⟨"Cannot read properties of undefined (reading 'filter')", ?_⟩
  unfold runStep run stage1
  simp [holv, hno, JsError.message]

/-- C10 witness: the behaviour evaluated on a concrete document with no
`isbn` member. -/
theorem c10_missing_isbn_member_raises_witness :
    ∃ m, runStep envNoIsbnField = .error ("Error fetching book data: " ++ m) :=
  c10_missing_isbn_member_raises envNoIsbnField docNoIsbn [] rfl rfl

end BookScanner
